import Mathlib

/-!
# Verification of the TrustCircle client aggregation core

Shallow embedding of `src/frontend/src/App.jsx`: the wallet-connection
workflow (`connectWallet`), the data aggregation (`loadUserData`), the
mint workflow (`mintReputation`) and the tier view projection
(`tierNames`/`tierColors` indexing).

Modelling conventions:
- `uint256` values from the chain are `Nat` (ethers v6 returns BigInt,
  which is exact).  JS numbers are IEEE-754 binary64: the one place the
  program performs real double arithmetic, `Number(interestRate) / 100`,
  is modelled by `jsDiv100`, which rounds to nearest-even at 53 bits of
  precision twice (once for the BigInt-to-Number conversion, once for the
  division), exactly as the engine does; the resulting double is carried
  as the exact rational it denotes.  The fields stored through `Number()`
  and then used as integers (score, tier, loan count, trust score) are
  kept as `Nat`: `Number` is exact below 2^53 and those claims never
  leave that range; this simplification is noted here once.
- Each external call is a field of an `Env` record holding the call's
  outcome (`Except JsError _`), since the adapters are stateless and the
  component performs at most one call per method per run.
- `await` sequencing is made visible as an event trace: every service
  call emits a start event and a finish event, in the order the JS
  engine would perform them (an `await` completes before the next
  expression is evaluated).
- React state setters are modelled as functional updates of `AppState`;
  `console.error` as a `logged` flag; `alert` as an explicit outcome
  value.
- In `loadUserData`, the line `const contracts = contractsObj || contracts`
  reads the block-scoped `contracts` binding inside its own temporal dead
  zone whenever `contractsObj` is absent, which throws a `ReferenceError`;
  the model makes that explicit.
-/

/-- Errors that can be thrown inside the component. -/
inductive JsError where
  | referenceError : JsError
  | typeError : JsError
  | serviceError : String → JsError
deriving DecidableEq, Repr

/-- Trace events: a service call is issued (`start`) and settles (`fin`). -/
inductive Ev where
  | start : String → Ev
  | fin : String → Ev
deriving DecidableEq, BEq, Repr

/-- The tuple returned by `getReputationData`. -/
structure RepData where
  score : Nat
  loansCompleted : Nat
  totalBorrowed : Nat
  totalRepaid : Nat
  lastUpdated : Nat
  currentTier : Nat
deriving DecidableEq, Repr

/-- Outcomes of the external calls the component can make during one run.
The adapters are stateless single request/response calls, so one outcome
per method suffices. -/
structure Env where
  hasWallet : Bool
  requestAccounts : Except JsError (List String)
  getSigner : Except JsError Unit
  getReputationScore : Except JsError Nat
  getReputationData : Except JsError RepData
  getBorrowingLimit : Except JsError Nat
  getInterestRate : Except JsError Nat
  getTrustScore : Except JsError Nat
  getUserCircles : Except JsError (List Nat)
  mint : Except JsError Unit
  txWait : Except JsError Unit

/-- The object passed to `setReputationData`. -/
structure Snapshot where
  score : Nat
  tier : Nat
  loansCompleted : Nat
  totalBorrowed : String
  totalRepaid : String
  borrowingLimit : String
  interestRate : ℚ
  trustScore : Nat
  circles : Nat
deriving DecidableEq, Repr

/-- The React component state relevant to the core. -/
structure AppState where
  account : Option String
  providerSet : Bool
  signerSet : Bool
  contracts : Option Unit
  reputationData : Option Snapshot
  loading : Bool
  activeTab : String
deriving DecidableEq, Repr

/-- Left-pad a string with zeros to the given length. -/
def padLeftZeros (s : String) (len : Nat) : String :=
  String.mk (List.replicate (len - s.length) '0') ++ s

/-- Drop trailing zero characters. -/
def dropTrailingZeros (s : String) : String :=
  String.mk ((s.data.reverse.dropWhile (fun c => c = '0')).reverse)

/-- `ethers.formatEther`: base-unit integer to decimal string, trailing
zeros trimmed but keeping at least one fractional digit. -/
def formatEther (n : Nat) : String :=
  let whole := n / 1000000000000000000
  let frac := n % 1000000000000000000
  let fracStr := dropTrailingZeros (padLeftZeros (toString frac) 18)
  toString whole ++ "." ++ (if fracStr.isEmpty then "0" else fracStr)

/-- One IEEE-754 binary64 round-to-nearest-even step.  The positive value
a / b is returned as a pair (m, J) encoding the double m * 2^204 / 2^J,
with mantissa m obtained by rounding a * 2^J / (b * 2^204) to the nearest
integer (ties to even) for the unique J that puts that quotient in
[2^52, 2^53).  The offset 204 lets J range over 0..339, covering binary
exponents from -84 up to 256: every positive value this development
feeds in (integers below 2^257 and decimal fractions down to 10^-18
divided by small denominators) is a normal double in that range, so
neither subnormals nor overflow arise.  Zero (and any out-of-range
value) is encoded as (0, 0). -/
def fpRound (a b : Nat) : Nat × Nat :=
  match (List.range 340).findSome? (fun J =>
    if 2^52 * (b * 2^204) ≤ a * 2^J ∧ a * 2^J < 2^53 * (b * 2^204) then some J
    else none) with
  | none => (0, 0)
  | some J =>
    let D := b * 2^204
    let m0 := a * 2^J / D
    let r := a * 2^J % D
    if 2 * r < D then (m0, J)
    else if D < 2 * r then (m0 + 1, J)
    else if m0 % 2 = 0 then (m0, J)
    else (m0 + 1, J)

/-- The rational a binary64 pair (m, J) denotes. -/
def fpToQ (p : Nat × Nat) : ℚ := (p.1 : ℚ) * 2^204 / 2^p.2

/-- `Number(n) / 100` as the engine computes it for a BigInt n: first n is
rounded to a double (exact for n below 2^53), then the quotient by 100 is
rounded again; the double (fpRound n 1).1 * 2^204 / 2^(fpRound n 1).2
divided by 100 is the ratio of the two naturals handed to the second
rounding step. -/
def jsDiv100 (n : Nat) : ℚ :=
  fpToQ (fpRound ((fpRound n 1).1 * 2^204) (100 * 2^(fpRound n 1).2))

/-- The snapshot object built at `setReputationData` (App.jsx lines 98-108). -/
def mkSnapshot (data : RepData) (borrowingLimit interestRate trustScore : Nat)
    (circles : List Nat) : Snapshot :=
  { score := data.score
    tier := data.currentTier
    loansCompleted := data.loansCompleted
    totalBorrowed := formatEther data.totalBorrowed
    totalRepaid := formatEther data.totalRepaid
    borrowingLimit := formatEther borrowingLimit
    interestRate := jsDiv100 interestRate
    trustScore := trustScore
    circles := circles.length }

/-- Events emitted by one awaited service call. -/
def readEv (name : String) : List Ev := [Ev.start name, Ev.fin name]

/-- The `try` body of `loadUserData` (App.jsx lines 87-109): trace of calls
performed, and either the updated state or the thrown error.  With no
`contractsObj`, evaluating `contractsObj || contracts` reads `contracts` in
its temporal dead zone and throws before any service call. -/
def loadUserDataBody (env : Env) (contractsObj : Option Unit) (st : AppState) :
    List Ev × Except JsError AppState :=
  match contractsObj with
  | none => ([], Except.error JsError.referenceError)
  | some _ =>
    match env.getReputationScore with
    | Except.error e => (readEv "getReputationScore", Except.error e)
    | Except.ok score =>
      if score > 0 then
        match env.getReputationData with
        | Except.error e =>
            (readEv "getReputationScore" ++ readEv "getReputationData", Except.error e)
        | Except.ok data =>
          match env.getBorrowingLimit with
          | Except.error e =>
              (readEv "getReputationScore" ++ readEv "getReputationData" ++
                readEv "getBorrowingLimit", Except.error e)
          | Except.ok bl =>
            match env.getInterestRate with
            | Except.error e =>
                (readEv "getReputationScore" ++ readEv "getReputationData" ++
                  readEv "getBorrowingLimit" ++ readEv "getInterestRate", Except.error e)
            | Except.ok ir =>
              match env.getTrustScore with
              | Except.error e =>
                  (readEv "getReputationScore" ++ readEv "getReputationData" ++
                    readEv "getBorrowingLimit" ++ readEv "getInterestRate" ++
                    readEv "getTrustScore", Except.error e)
              | Except.ok tsc =>
                match env.getUserCircles with
                | Except.error e =>
                    (readEv "getReputationScore" ++ readEv "getReputationData" ++
                      readEv "getBorrowingLimit" ++ readEv "getInterestRate" ++
                      readEv "getTrustScore" ++ readEv "getUserCircles", Except.error e)
                | Except.ok cs =>
                    (readEv "getReputationScore" ++ readEv "getReputationData" ++
                      readEv "getBorrowingLimit" ++ readEv "getInterestRate" ++
                      readEv "getTrustScore" ++ readEv "getUserCircles",
                      Except.ok { st with reputationData := some (mkSnapshot data bl ir tsc cs) })
      else (readEv "getReputationScore", Except.ok st)

/-- Result of one `loadUserData` run, as observed by its awaiting caller. -/
structure LoadResult where
  trace : List Ev
  state : AppState
  callerOutcome : Except JsError Unit
  logged : Bool
deriving Repr

/-- `loadUserData` (App.jsx lines 85-113): the `catch` block logs the error
to the console and the function returns `undefined` either way, so the
caller-visible outcome is `Except.ok ()` on every path. -/
def loadUserData (env : Env) (contractsObj : Option Unit) (st : AppState) : LoadResult :=
  match loadUserDataBody env contractsObj st with
  | (t, Except.ok st2) =>
      { trace := t, state := st2, callerOutcome := Except.ok (), logged := false }
  | (t, Except.error _) =>
      { trace := t, state := st, callerOutcome := Except.ok (), logged := true }

/-- Caller-visible outcome of `connectWallet`: early alert asking for a
wallet, a caught-and-logged error, or normal completion. -/
inductive ConnOutcome where
  | noWalletAlert
  | errorLogged
  | completed
deriving DecidableEq, Repr

/-- Result of one `connectWallet` run. -/
structure ConnResult where
  trace : List Ev
  state : AppState
  outcome : ConnOutcome
deriving Repr

/-- `connectWallet` (App.jsx lines 52-82).  With no wallet it alerts and
returns before touching any state.  Otherwise it sets `loading`, awaits
`eth_requestAccounts` and `getSigner`; a rejection there is caught, logged
and clears `loading` with nothing else set.  On success it stores the
provider, signer, account `accounts[0]` and the contract handles, then
awaits `loadUserData` (whose errors never escape) and clears `loading`. -/
def connectWallet (env : Env) (st : AppState) : ConnResult :=
  if env.hasWallet = false then
    { trace := [], state := st, outcome := ConnOutcome.noWalletAlert }
  else
    let st1 := { st with loading := true }
    match env.requestAccounts with
    | Except.error _ =>
        { trace := readEv "requestAccounts",
          state := { st1 with loading := false }, outcome := ConnOutcome.errorLogged }
    | Except.ok accounts =>
      match env.getSigner with
      | Except.error _ =>
          { trace := readEv "requestAccounts" ++ readEv "getSigner",
            state := { st1 with loading := false }, outcome := ConnOutcome.errorLogged }
      | Except.ok _ =>
        let st2 := { st1 with
                     providerSet := true
                     signerSet := true
                     account := accounts.get? 0
                     contracts := some () }
        let r := loadUserData env (some ()) st2
        { trace := readEv "requestAccounts" ++ readEv "getSigner" ++ r.trace,
          state := { r.state with loading := false },
          outcome := ConnOutcome.completed }

/-- The alert `mintReputation` ends with. -/
inductive MintAlert where
  | mintedSuccess
  | mintErrorAlert
deriving DecidableEq, Repr

/-- Result of one `mintReputation` run. -/
structure MintResult where
  trace : List Ev
  state : AppState
  alert : MintAlert
deriving Repr

/-- `mintReputation` (App.jsx lines 116-129).  Sets `loading`, then
`contracts.reputationNFT.mint(account)` (a `TypeError` when `contracts` is
null), awaits the transaction and `tx.wait()`, then calls
`loadUserData(account)` WITHOUT the contracts argument (see
`loadUserDataBody`: that call throws internally and is swallowed), clears
`loading` and alerts success.  Any thrown error is caught, logged, clears
`loading` and alerts a generic mint error. -/
def mintReputation (env : Env) (st : AppState) : MintResult :=
  let st1 := { st with loading := true }
  match st.contracts with
  | none =>
      { trace := [], state := { st1 with loading := false }, alert := MintAlert.mintErrorAlert }
  | some _ =>
    match env.mint with
    | Except.error _ =>
        { trace := readEv "mint",
          state := { st1 with loading := false }, alert := MintAlert.mintErrorAlert }
    | Except.ok _ =>
      match env.txWait with
      | Except.error _ =>
          { trace := readEv "mint" ++ readEv "txWait",
            state := { st1 with loading := false }, alert := MintAlert.mintErrorAlert }
      | Except.ok _ =>
        let r := loadUserData env none st1
        { trace := readEv "mint" ++ readEv "txWait" ++ r.trace,
          state := { r.state with loading := false },
          alert := MintAlert.mintedSuccess }

/-- The fixed tier name table (App.jsx line 48). -/
def tierNames : List String := ["Bronze", "Silver", "Gold", "Platinum", "Diamond"]

/-- JS array indexing `tierNames[i]`: `undefined` out of range. -/
def tierName (i : Nat) : Option String := tierNames.get? i

/-- Numeric value of a digit string. -/
def digitsVal (l : List Char) : Nat := l.foldl (fun a c => a * 10 + (c.toNat - 48)) 0

/-- The numeric effect of `parseFloat(s)` followed by `.toFixed(2)` on the
non-negative decimal strings `formatEther` produces.  A string W.F denotes
digits(WF) / 10^|F|; `parseFloat` yields the binary64 double x nearest
that value (`fpRound`), and `toFixed(2)` returns the integer n closest to
x * 100, picking the larger n on a tie (ECMA half-up on the exact double
value, not on the decimal text — so for example the string 1.005, whose
double is slightly below 1.005, yields 100 cents, as the engine does).
With x = m * 2^204 / 2^J, that n is the floor of (200 * m * 2^204 + 2^J)
divided by 2 * 2^J. -/
def decimalToCents (s : String) : Nat :=
  let w := s.data.takeWhile (fun c => !(c = '.'))
  let f := (s.data.dropWhile (fun c => !(c = '.'))).drop 1
  let p := fpRound (digitsVal (w ++ f)) (10 ^ f.length)
  (2 * (p.1 * 100 * 2^204) + 2^p.2) / (2 * 2^p.2)

/-- Render a cent count with exactly two fractional digits. -/
def centsToFixed2 (cents : Nat) : String :=
  toString (cents / 100) ++ "." ++ padLeftZeros (toString (cents % 100)) 2

/-- The view's monetary rendering `parseFloat(x).toFixed(2)`
(App.jsx lines 233, 237, 250). -/
def displayAmount (s : String) : String := centsToFixed2 (decimalToCents s)

/-- The five dependent reads issued when `score > 0`, in source order. -/
def depReadNames : List String :=
  ["getReputationData", "getBorrowingLimit", "getInterestRate",
   "getTrustScore", "getUserCircles"]

/-- Every one of the named calls is issued before any of them settles:
the spec's notion of the reads being in flight concurrently. -/
def issuedConcurrently (t : List Ev) (names : List String) : Bool :=
  names.all fun a => names.all fun b =>
    match t.indexOf? (Ev.start a), t.indexOf? (Ev.fin b) with
    | some i, some j => decide (i < j)
    | _, _ => false

/-- Each named call settles before the next one is issued. -/
def serializedCalls (t : List Ev) (names : List String) : Bool :=
  (names.zip names.tail).all fun p =>
    match t.indexOf? (Ev.fin p.1), t.indexOf? (Ev.start p.2) with
    | some i, some j => decide (i < j)
    | _, _ => false

/-- The initial component state (App.jsx lines 33-39). -/
def st0 : AppState :=
  { account := none, providerSet := false, signerSet := false,
    contracts := none, reputationData := none, loading := false,
    activeTab := "dashboard" }

/-- The raw record of the spec's worked scenario. -/
def repData10 : RepData :=
  { score := 750, loansCompleted := 3,
    totalBorrowed := 5000000000000000000,
    totalRepaid := 4800000000000000000,
    lastUpdated := 0, currentTier := 2 }

/-- Environment of the spec's worked scenario: every call succeeds. -/
def env10 : Env :=
  { hasWallet := true,
    requestAccounts := Except.ok ["0xabc"],
    getSigner := Except.ok (),
    getReputationScore := Except.ok 750,
    getReputationData := Except.ok repData10,
    getBorrowingLimit := Except.ok 2000000000000000000,
    getInterestRate := Except.ok 850,
    getTrustScore := Except.ok 120,
    getUserCircles := Except.ok [7, 12],
    mint := Except.ok (),
    txWait := Except.ok () }

/-- The snapshot the code actually stores in the worked scenario. -/
def snap10 : Snapshot :=
  { score := 750, tier := 2, loansCompleted := 3,
    totalBorrowed := "5.0", totalRepaid := "4.8", borrowingLimit := "2.0",
    interestRate := jsDiv100 850, trustScore := 120, circles := 2 }

/-- A state after a successful connection. -/
def stConnected : AppState :=
  { st0 with
    account := some "0xabc"
    providerSet := true
    signerSet := true
    contracts := some () }

/-- Scenario environment with the score read failing. -/
def envScoreFail : Env :=
  { env10 with getReputationScore := Except.error (JsError.serviceError "score read failed") }

/-- Scenario environment with the borrowing-limit read failing. -/
def envLimitFail : Env :=
  { env10 with getBorrowingLimit := Except.error (JsError.serviceError "limit read failed") }

/-- Scenario environment with a score of zero. -/
def envScoreZero : Env :=
  { env10 with getReputationScore := Except.ok 0 }

/-- Scenario environment where the wallet provider rejects the connection. -/
def envConnFail : Env :=
  { env10 with requestAccounts := Except.error (JsError.serviceError "user rejected") }

/-- A session state that already holds a stored snapshot. -/
def stWithSnap : AppState := { stConnected with reputationData := some snap10 }

/-- Scenario environment whose interest-rate read returns 1 basis point. -/
def envRate1 : Env :=
  { env10 with getInterestRate := Except.ok 1 }

/-- Scenario environment where the mint write is rejected. -/
def envMintFail : Env :=
  { env10 with mint := Except.error (JsError.serviceError "mint rejected") }

/-- Every call trace one run of loadUserData can produce: nothing (the
missing-contracts throw), the score read alone (failed read or zero
score), or the score read followed by a prefix of the five dependent
reads, cut at the first failure. -/
def loadTraceShapes : List (List Ev) :=
  [[],
   readEv "getReputationScore",
   readEv "getReputationScore" ++ readEv "getReputationData",
   readEv "getReputationScore" ++ readEv "getReputationData" ++
     readEv "getBorrowingLimit",
   readEv "getReputationScore" ++ readEv "getReputationData" ++
     readEv "getBorrowingLimit" ++ readEv "getInterestRate",
   readEv "getReputationScore" ++ readEv "getReputationData" ++
     readEv "getBorrowingLimit" ++ readEv "getInterestRate" ++
     readEv "getTrustScore",
   readEv "getReputationScore" ++ readEv "getReputationData" ++
     readEv "getBorrowingLimit" ++ readEv "getInterestRate" ++
     readEv "getTrustScore" ++ readEv "getUserCircles"]

set_option exponentiation.threshold 600 in
/-- The double nearest 0.01: Number(1)/100 in binary64. -/
theorem jsDiv100_one : jsDiv100 1 = (5764607523034235 : ℚ) / 2^59 := by
  have h1 : fpRound 1 1 = (4503599627370496, 256) := by decide
  have h2 : fpRound (4503599627370496 * 2^204) (100 * 2^256) =
      (5764607523034235, 263) := by decide
  unfold jsDiv100
  rw [h1]
  show fpToQ (fpRound (4503599627370496 * 2^204) (100 * 2^256)) = _
  rw [h2]
  unfold fpToQ
  norm_num

/-- Number(250)/100 is exactly 2.5: the quotient is a dyadic rational. -/
theorem jsDiv100_250 : jsDiv100 250 = (250 : ℚ) / 100 := by
  have h1 : fpRound 250 1 = (8796093022208000, 249) := by decide
  have h2 : fpRound (8796093022208000 * 2^204) (100 * 2^249) =
      (5629499534213120, 255) := by decide
  unfold jsDiv100
  rw [h1]
  show fpToQ (fpRound (8796093022208000 * 2^204) (100 * 2^249)) = _
  rw [h2]
  unfold fpToQ
  norm_num

/-- Number(850)/100 is exactly 8.5: the quotient is a dyadic rational. -/
theorem jsDiv100_850 : jsDiv100 850 = (850 : ℚ) / 100 := by
  have h1 : fpRound 850 1 = (7476679068876800, 247) := by decide
  have h2 : fpRound (7476679068876800 * 2^204) (100 * 2^247) =
      (4785074604081152, 253) := by decide
  unfold jsDiv100
  rw [h1]
  show fpToQ (fpRound (7476679068876800 * 2^204) (100 * 2^247)) = _
  rw [h2]
  unfold fpToQ
  norm_num

/-- Every loadUserData run produces one of the seven trace shapes. -/
theorem loadUserData_trace_mem (env : Env) (c : Option Unit) (st : AppState) :
    (loadUserData env c st).trace ∈ loadTraceShapes := by
  have h0 : ([] : List Ev) ∈ loadTraceShapes :=
    List.mem_cons_self _ _
  have h1 : readEv "getReputationScore" ∈ loadTraceShapes :=
    List.mem_cons_of_mem _ (List.mem_cons_self _ _)
  have h2 : readEv "getReputationScore" ++ readEv "getReputationData" ∈
      loadTraceShapes :=
    List.mem_cons_of_mem _ (List.mem_cons_of_mem _ (List.mem_cons_self _ _))
  have h3 : readEv "getReputationScore" ++ readEv "getReputationData" ++
      readEv "getBorrowingLimit" ∈ loadTraceShapes :=
    List.mem_cons_of_mem _ (List.mem_cons_of_mem _ (List.mem_cons_of_mem _
      (List.mem_cons_self _ _)))
  have h4 : readEv "getReputationScore" ++ readEv "getReputationData" ++
      readEv "getBorrowingLimit" ++ readEv "getInterestRate" ∈
      loadTraceShapes :=
    List.mem_cons_of_mem _ (List.mem_cons_of_mem _ (List.mem_cons_of_mem _
      (List.mem_cons_of_mem _ (List.mem_cons_self _ _))))
  have h5 : readEv "getReputationScore" ++ readEv "getReputationData" ++
      readEv "getBorrowingLimit" ++ readEv "getInterestRate" ++
      readEv "getTrustScore" ∈ loadTraceShapes :=
    List.mem_cons_of_mem _ (List.mem_cons_of_mem _ (List.mem_cons_of_mem _
      (List.mem_cons_of_mem _ (List.mem_cons_of_mem _ (List.mem_cons_self _ _)))))
  have h6 : readEv "getReputationScore" ++ readEv "getReputationData" ++
      readEv "getBorrowingLimit" ++ readEv "getInterestRate" ++
      readEv "getTrustScore" ++ readEv "getUserCircles" ∈ loadTraceShapes :=
    List.mem_cons_of_mem _ (List.mem_cons_of_mem _ (List.mem_cons_of_mem _
      (List.mem_cons_of_mem _ (List.mem_cons_of_mem _ (List.mem_cons_of_mem _
        (List.mem_cons_self _ _))))))
  unfold loadUserData loadUserDataBody
  cases c
  · exact h0
  · cases env.getReputationScore with
    | error e => exact h1
    | ok score =>
      rcases Nat.eq_zero_or_pos score with hz | hpos
      · subst hz
        exact h1
      · cases env.getReputationData <;> cases env.getBorrowingLimit <;>
          cases env.getInterestRate <;> cases env.getTrustScore <;>
          cases env.getUserCircles <;>
          simp only [if_pos hpos] <;>
          first
          | exact h2
          | exact h3
          | exact h4
          | exact h5
          | exact h6

/-- A loadUserData trace never repeats a call. -/
theorem loadUserData_trace_nodup (env : Env) (c : Option Unit) (st : AppState) :
    (loadUserData env c st).trace.Nodup := by
  have h := loadUserData_trace_mem env c st
  simp only [loadTraceShapes, List.mem_cons, List.not_mem_nil, or_false] at h
  rcases h with h | h | h | h | h | h | h <;> rw [h] <;> decide

/-- Prefixing a loadUserData trace with the two connection calls keeps it
duplicate-free. -/
theorem connectTraceAux (t : List Ev) (ht : t ∈ loadTraceShapes) :
    (readEv "requestAccounts" ++ readEv "getSigner" ++ t).Nodup := by
  simp only [loadTraceShapes, List.mem_cons, List.not_mem_nil, or_false] at ht
  rcases ht with h | h | h | h | h | h | h <;> rw [h] <;> decide

/-- C1: for an identity whose score reads strictly positive, if any one of
the dependent reads (reputation record, borrowing limit, interest rate,
trust score, circle list) fails, the aggregation publishes nothing: the
whole session state, and in particular the previously stored snapshot, is
left exactly as it was. -/
theorem c1_dependent_read_failure_is_atomic (env : Env) (st : AppState) (s : Nat)
    (hscore : env.getReputationScore = Except.ok s) (hpos : 0 < s)
    (hfail : (∃ e, env.getReputationData = Except.error e) ∨
             (∃ e, env.getBorrowingLimit = Except.error e) ∨
             (∃ e, env.getInterestRate = Except.error e) ∨
             (∃ e, env.getTrustScore = Except.error e) ∨
             (∃ e, env.getUserCircles = Except.error e)) :
    (loadUserData env (some ()) st).state = st ∧
    (loadUserData env (some ()) st).state.reputationData = st.reputationData := by
  have hst : (loadUserData env (some ()) st).state = st := by
    unfold loadUserData loadUserDataBody
    rw [hscore]
    cases h2 : env.getReputationData <;> cases h3 : env.getBorrowingLimit <;>
      cases h4 : env.getInterestRate <;> cases h5 : env.getTrustScore <;>
      cases h6 : env.getUserCircles <;> simp_all
  exact ⟨hst, by rw [hst]⟩

/-- C1 witness: the worked scenario with the borrowing-limit read failing
leaves the initial state untouched. -/
theorem c1_witness :
    (loadUserData envLimitFail (some ()) st0).state = st0 ∧
    (loadUserData envLimitFail (some ()) st0).state.reputationData = st0.reputationData :=
  c1_dependent_read_failure_is_atomic envLimitFail st0 750 rfl (by norm_num)
    (Or.inr (Or.inl ⟨JsError.serviceError "limit read failed", rfl⟩))

/-- C2: when the reputation score reads as zero, the aggregation stops
after that single read, publishes nothing, and leaves the session state,
including any stored snapshot, unmodified. -/
theorem c2_zero_score_returns_absence (env : Env) (st : AppState)
    (hscore : env.getReputationScore = Except.ok 0) :
    (loadUserData env (some ()) st).state = st ∧
    (loadUserData env (some ()) st).state.reputationData = st.reputationData ∧
    (loadUserData env (some ()) st).trace = readEv "getReputationScore" := by
  have hst : loadUserData env (some ()) st =
      { trace := readEv "getReputationScore", state := st,
        callerOutcome := Except.ok (), logged := false } := by
    unfold loadUserData loadUserDataBody
    rw [hscore]
    simp
  rw [hst]
  exact ⟨rfl, rfl, rfl⟩

/-- C2 witness: a zero score on a state holding a previous snapshot leaves
that snapshot in place and performs only the score read. -/
theorem c2_witness :
    (loadUserData envScoreZero (some ()) stWithSnap).state = stWithSnap ∧
    (loadUserData envScoreZero (some ()) stWithSnap).state.reputationData =
      stWithSnap.reputationData ∧
    (loadUserData envScoreZero (some ()) stWithSnap).trace = readEv "getReputationScore" :=
  c2_zero_score_returns_absence envScoreZero stWithSnap rfl

/-- C3 counterexample: with the interest-rate read returning raw value 1,
the published snapshot stores the binary64 double nearest 0.01, namely
5764607523034235 / 2^59, which is not 1/100: the claimed exact division
fails for the program. -/
theorem c3_counterexample :
    (loadUserData envRate1 (some ()) st0).state.reputationData =
      some (mkSnapshot repData10 2000000000000000000 1 120 [7, 12]) ∧
    (mkSnapshot repData10 2000000000000000000 1 120 [7, 12]).interestRate ≠
      (1 : ℚ) / 100 := by
  constructor
  · rfl
  · show jsDiv100 1 ≠ (1 : ℚ) / 100
    rw [jsDiv100_one]
    norm_num

/-- C3 (amended): with a positive score and all dependent reads
succeeding, the published snapshot holds interestRate equal to
Number(raw)/100 in binary64 arithmetic — the nearest-even double — which
equals raw/100 exactly when that quotient is representable, as for the
examples raw 250 (exactly 2.5) and raw 850 (exactly 8.5), but not for
every raw value. -/
theorem c3_interest_rate_rounded_div_100 (env : Env) (st : AppState)
    (s : Nat) (data : RepData) (bl ir tsc : Nat) (cs : List Nat)
    (hscore : env.getReputationScore = Except.ok s) (hpos : 0 < s)
    (hdata : env.getReputationData = Except.ok data)
    (hbl : env.getBorrowingLimit = Except.ok bl)
    (hir : env.getInterestRate = Except.ok ir)
    (hts : env.getTrustScore = Except.ok tsc)
    (hcs : env.getUserCircles = Except.ok cs) :
    (loadUserData env (some ()) st).state.reputationData =
      some (mkSnapshot data bl ir tsc cs) ∧
    (mkSnapshot data bl ir tsc cs).interestRate = jsDiv100 ir ∧
    jsDiv100 250 = (250 : ℚ) / 100 ∧
    jsDiv100 850 = (850 : ℚ) / 100 := by
  refine ⟨?_, rfl, jsDiv100_250, jsDiv100_850⟩
  unfold loadUserData loadUserDataBody
  rw [hscore, hdata, hbl, hir, hts, hcs]
  simp [hpos]

/-- C3 witness: the worked scenario publishes interest rate
Number(850)/100, which is exactly 8.5. -/
theorem c3_witness :
    ((loadUserData env10 (some ()) st0).state.reputationData =
      some (mkSnapshot repData10 2000000000000000000 850 120 [7, 12]) ∧
    (mkSnapshot repData10 2000000000000000000 850 120 [7, 12]).interestRate =
      jsDiv100 850 ∧
    jsDiv100 250 = (250 : ℚ) / 100 ∧
    jsDiv100 850 = (850 : ℚ) / 100) ∧
    (850 : ℚ) / 100 = 8.5 :=
  ⟨c3_interest_rate_rounded_div_100 env10 st0 750 repData10
    2000000000000000000 850 120 [7, 12] rfl (by norm_num) rfl rfl rfl rfl rfl,
   by norm_num⟩

/-- C4 counterexample: in the fully successful worked scenario the five
dependent reads are not in flight together: it is false that every one of
them is issued before any of them settles. -/
theorem c4_counterexample :
    issuedConcurrently (loadUserData env10 (some ()) st0).trace depReadNames = false := by
  decide

/-- C4 (amended): with a positive score and all reads succeeding, the five
dependent reads are issued strictly sequentially, each awaited to
completion before the next is issued, and all of them settle before the
snapshot is assembled; they are never in flight concurrently. -/
theorem c4_reads_are_serialized (env : Env) (st : AppState)
    (s : Nat) (data : RepData) (bl ir tsc : Nat) (cs : List Nat)
    (hscore : env.getReputationScore = Except.ok s) (hpos : 0 < s)
    (hdata : env.getReputationData = Except.ok data)
    (hbl : env.getBorrowingLimit = Except.ok bl)
    (hir : env.getInterestRate = Except.ok ir)
    (hts : env.getTrustScore = Except.ok tsc)
    (hcs : env.getUserCircles = Except.ok cs) :
    (loadUserData env (some ()) st).trace =
      readEv "getReputationScore" ++ readEv "getReputationData" ++
      readEv "getBorrowingLimit" ++ readEv "getInterestRate" ++
      readEv "getTrustScore" ++ readEv "getUserCircles" ∧
    serializedCalls (loadUserData env (some ()) st).trace depReadNames = true ∧
    issuedConcurrently (loadUserData env (some ()) st).trace depReadNames = false := by
  have ht : (loadUserData env (some ()) st).trace =
      readEv "getReputationScore" ++ readEv "getReputationData" ++
      readEv "getBorrowingLimit" ++ readEv "getInterestRate" ++
      readEv "getTrustScore" ++ readEv "getUserCircles" := by
    unfold loadUserData loadUserDataBody
    rw [hscore, hdata, hbl, hir, hts, hcs]
    simp [hpos]
  refine ⟨ht, ?_, ?_⟩ <;> rw [ht] <;> decide

/-- C4 witness: the serialized trace shape holds in the worked scenario. -/
theorem c4_witness :
    (loadUserData env10 (some ()) st0).trace =
      readEv "getReputationScore" ++ readEv "getReputationData" ++
      readEv "getBorrowingLimit" ++ readEv "getInterestRate" ++
      readEv "getTrustScore" ++ readEv "getUserCircles" ∧
    serializedCalls (loadUserData env10 (some ()) st0).trace depReadNames = true ∧
    issuedConcurrently (loadUserData env10 (some ()) st0).trace depReadNames = false :=
  c4_reads_are_serialized env10 st0 750 repData10 2000000000000000000 850 120 [7, 12]
    rfl (by norm_num) rfl rfl rfl rfl rfl

/-- C5 counterexample: with the mint write and its confirmation accepted,
the refresh fails (the stored snapshot stays absent even though every
read would have succeeded), yet the workflow reports plain success — it
does not surface any distinct post-mint-refresh error. -/
theorem c5_counterexample :
    (mintReputation env10 stConnected).alert = MintAlert.mintedSuccess ∧
    (mintReputation env10 stConnected).state.reputationData = none := by
  exact ⟨rfl, rfl⟩

/-- C5 (amended): whenever the mint write and its confirmation are
accepted, the internal refresh fails and is swallowed, the workflow
reports success (never a distinct refresh error, which does not exist in
the code), the stored snapshot is unchanged, and the mint write is
submitted exactly once, never re-submitted. -/
theorem c5_failed_refresh_reports_success (env : Env) (st : AppState)
    (hc : st.contracts = some ()) (hm : env.mint = Except.ok ())
    (hw : env.txWait = Except.ok ()) :
    (mintReputation env st).alert = MintAlert.mintedSuccess ∧
    (mintReputation env st).state.reputationData = st.reputationData ∧
    ((mintReputation env st).trace.count (Ev.start "mint")) = 1 := by
  unfold mintReputation
  rw [hc, hm, hw]
  exact ⟨rfl, rfl, rfl⟩

/-- C5 witness: the amended behavior at the worked scenario. -/
theorem c5_witness :
    (mintReputation env10 stConnected).alert = MintAlert.mintedSuccess ∧
    (mintReputation env10 stConnected).state.reputationData = stConnected.reputationData ∧
    ((mintReputation env10 stConnected).trace.count (Ev.start "mint")) = 1 :=
  c5_failed_refresh_reports_success env10 stConnected rfl rfl rfl

/-- C6 counterexample: a failed score read leaves the awaiting caller with
exactly the same outcome as a fully successful run — the returned value is
the plain undefined completion in both cases, so the failure is not
surfaced as a distinct inspectable outcome of any taxonomy. -/
theorem c6_counterexample :
    envScoreFail.getReputationScore =
      Except.error (JsError.serviceError "score read failed") ∧
    (loadUserData envScoreFail (some ()) st0).callerOutcome = Except.ok () ∧
    (loadUserData env10 (some ()) st0).callerOutcome = Except.ok () := by
  exact ⟨rfl, rfl, rfl⟩

/-- C6 (amended): no failure surfaces as a distinct inspectable outcome,
and none is retried.  In loadUserData the caller always receives the same
undefined completion, and any internal failure is only console-logged
with the state untouched; a failed account request or signer step inside
connectWallet likewise ends in the caught-and-logged outcome; a failed
mint write or confirmation surfaces only as the generic mint-error alert;
and no run of any of the three entry points ever issues the same call
twice (every trace is duplicate-free), so nothing is retried
automatically. -/
theorem c6_failures_swallowed_not_retried (env : Env) (st : AppState) :
    (loadUserData env (some ()) st).callerOutcome = Except.ok () ∧
    ((∃ er, (loadUserDataBody env (some ()) st).2 = Except.error er) →
      (loadUserData env (some ()) st).logged = true ∧
      (loadUserData env (some ()) st).state = st) ∧
    (∀ e, env.hasWallet = true → env.requestAccounts = Except.error e →
      (connectWallet env st).outcome = ConnOutcome.errorLogged) ∧
    (∀ accounts e, env.hasWallet = true → env.requestAccounts = Except.ok accounts →
      env.getSigner = Except.error e →
      (connectWallet env st).outcome = ConnOutcome.errorLogged) ∧
    (∀ e, st.contracts = some () → env.mint = Except.error e →
      (mintReputation env st).alert = MintAlert.mintErrorAlert) ∧
    (∀ e, st.contracts = some () → env.mint = Except.ok () →
      env.txWait = Except.error e →
      (mintReputation env st).alert = MintAlert.mintErrorAlert) ∧
    (loadUserData env (some ()) st).trace.Nodup ∧
    (connectWallet env st).trace.Nodup ∧
    (mintReputation env st).trace.Nodup := by
  have hA : (loadUserData env (some ()) st).callerOutcome = Except.ok () := by
    unfold loadUserData
    cases h : loadUserDataBody env (some ()) st with
    | mk t r => cases r <;> rfl
  have hB : (∃ er, (loadUserDataBody env (some ()) st).2 = Except.error er) →
      (loadUserData env (some ()) st).logged = true ∧
      (loadUserData env (some ()) st).state = st := by
    rintro ⟨er, her⟩
    unfold loadUserData
    cases h : loadUserDataBody env (some ()) st with
    | mk t r =>
      rw [h] at her
      cases r with
      | error e2 => exact ⟨rfl, rfl⟩
      | ok st2 => exact Except.noConfusion her
  have hC : ∀ e, env.hasWallet = true → env.requestAccounts = Except.error e →
      (connectWallet env st).outcome = ConnOutcome.errorLogged := by
    intro e hw hra
    unfold connectWallet
    rw [hw, hra]
    rfl
  have hD : ∀ accounts e, env.hasWallet = true →
      env.requestAccounts = Except.ok accounts → env.getSigner = Except.error e →
      (connectWallet env st).outcome = ConnOutcome.errorLogged := by
    intro accounts e hw hra hsig
    unfold connectWallet
    rw [hw, hra, hsig]
    rfl
  have hE : ∀ e, st.contracts = some () → env.mint = Except.error e →
      (mintReputation env st).alert = MintAlert.mintErrorAlert := by
    intro e hc hm
    unfold mintReputation
    rw [hc, hm]
  have hF : ∀ e, st.contracts = some () → env.mint = Except.ok () →
      env.txWait = Except.error e →
      (mintReputation env st).alert = MintAlert.mintErrorAlert := by
    intro e hc hm hw
    unfold mintReputation
    rw [hc, hm, hw]
  have n0 : ([] : List Ev).Nodup := by decide
  have n1 : (readEv "requestAccounts").Nodup := by decide
  have n2 : (readEv "requestAccounts" ++ readEv "getSigner").Nodup := by decide
  have m1 : (readEv "mint").Nodup := by decide
  have m2 : (readEv "mint" ++ readEv "txWait").Nodup := by decide
  have hH : (connectWallet env st).trace.Nodup := by
    unfold connectWallet
    cases hw : env.hasWallet
    · exact n0
    · cases hra : env.requestAccounts with
      | error e => exact n1
      | ok accounts =>
        cases hsig : env.getSigner with
        | error e => exact n2
        | ok u => exact connectTraceAux _ (loadUserData_trace_mem env (some ()) _)
  have hI : (mintReputation env st).trace.Nodup := by
    unfold mintReputation
    cases st.contracts
    · exact n0
    · cases env.mint with
      | error e => exact m1
      | ok u =>
        cases env.txWait with
        | error e => exact m2
        | ok u2 => exact m2
  exact ⟨hA, hB, hC, hD, hE, hF, loadUserData_trace_nodup env (some ()) st, hH, hI⟩

/-- C6 witness: the swallowed outcomes at concrete failing runs of all
three entry points, and a duplicate-free failing trace. -/
theorem c6_witness :
    (loadUserData envScoreFail (some ()) st0).callerOutcome = Except.ok () ∧
    ((loadUserData envScoreFail (some ()) st0).logged = true ∧
      (loadUserData envScoreFail (some ()) st0).state = st0) ∧
    (connectWallet envConnFail st0).outcome = ConnOutcome.errorLogged ∧
    (mintReputation envMintFail stConnected).alert = MintAlert.mintErrorAlert ∧
    (loadUserData envScoreFail (some ()) st0).trace.Nodup :=
  ⟨(c6_failures_swallowed_not_retried envScoreFail st0).1,
   (c6_failures_swallowed_not_retried envScoreFail st0).2.1
     ⟨JsError.serviceError "score read failed", rfl⟩,
   (c6_failures_swallowed_not_retried envConnFail st0).2.2.1
     (JsError.serviceError "user rejected") rfl rfl,
   (c6_failures_swallowed_not_retried envMintFail stConnected).2.2.2.2.1
     (JsError.serviceError "mint rejected") rfl rfl,
   (c6_failures_swallowed_not_retried envScoreFail st0).2.2.2.2.2.2.1⟩

/-- C7: calling loadUserData without the contracts argument throws on the
self-referential binding before any service read (empty trace), the error
is caught and logged, the state is returned unchanged — hence the
post-mint refresh inside mintReputation can never publish a snapshot. -/
theorem c7_refresh_without_contracts_always_noop (env : Env) (st : AppState) :
    loadUserData env none st =
      { trace := [], state := st, callerOutcome := Except.ok (), logged := true } ∧
    (mintReputation env st).state.reputationData = st.reputationData := by
  constructor
  · rfl
  · unfold mintReputation
    cases st.contracts <;> cases env.mint <;> cases env.txWait <;> rfl

/-- C8: a connect run that fails at the wallet check, the account request
or the signer step leaves an unconnected session exactly as it was: no
identity, no contract bindings, no snapshot change, loading cleared, and
no aggregation read is ever issued. -/
theorem c8_failed_connect_no_partial_effects (env : Env) (st : AppState)
    (hacc : st.account = none) (hcon : st.contracts = none) (hload : st.loading = false)
    (hfail : env.hasWallet = false ∨ (∃ e, env.requestAccounts = Except.error e) ∨
             (∃ e, env.getSigner = Except.error e)) :
    (connectWallet env st).state = st ∧
    (connectWallet env st).state.account = none ∧
    (connectWallet env st).state.contracts = none ∧
    ((connectWallet env st).trace.count (Ev.start "getReputationScore")) = 0 := by
  obtain ⟨acc, ps, ss, con, rep, ld, tab⟩ := st
  change acc = none at hacc
  change con = none at hcon
  change ld = false at hload
  subst hacc; subst hcon; subst hload
  have hst : (connectWallet env (AppState.mk none ps ss none rep false tab)).state =
      AppState.mk none ps ss none rep false tab ∧
      ((connectWallet env (AppState.mk none ps ss none rep false tab)).trace.count
        (Ev.start "getReputationScore")) = 0 := by
    unfold connectWallet
    rcases hfail with h | ⟨e, h⟩ | ⟨e, h⟩
    · rw [h]
      exact ⟨rfl, rfl⟩
    · rw [h]
      cases hw : env.hasWallet
      · exact ⟨rfl, rfl⟩
      · exact ⟨rfl, rfl⟩
    · rw [h]
      cases hw : env.hasWallet
      · exact ⟨rfl, rfl⟩
      · cases hra : env.requestAccounts
        · exact ⟨rfl, rfl⟩
        · exact ⟨rfl, rfl⟩
  exact ⟨hst.1, by rw [hst.1], by rw [hst.1], hst.2⟩

/-- C8 witness: a rejected account request from the initial state. -/
theorem c8_witness :
    (connectWallet envConnFail st0).state = st0 ∧
    (connectWallet envConnFail st0).state.account = none ∧
    (connectWallet envConnFail st0).state.contracts = none ∧
    ((connectWallet envConnFail st0).trace.count (Ev.start "getReputationScore")) = 0 :=
  c8_failed_connect_no_partial_effects envConnFail st0 rfl rfl rfl
    (Or.inr (Or.inl ⟨JsError.serviceError "user rejected", rfl⟩))

/-- C10 counterexample: in the worked scenario the snapshot the code
stores holds the strings "5.0", "4.8" and "2.0" — not the two-decimal
"5.00", "4.80" and "2.00" the claim states for the snapshot itself. -/
theorem c10_counterexample :
    (loadUserData env10 (some ()) st0).state.reputationData = some snap10 ∧
    snap10.totalBorrowed ≠ "5.00" ∧ snap10.totalRepaid ≠ "4.80" ∧
    snap10.borrowingLimit ≠ "2.00" := by
  exact ⟨rfl, by decide, by decide, by decide⟩

/-- C10 (amended): the worked scenario produces the snapshot with score
750, tier 2 (rendered "Gold"), 3 loans, stored monetary strings "5.0",
"4.8" and "2.0" which the view renders as "5.00", "4.80" and "2.00",
interest rate exactly 8.5, trust score 120 and circle count 2. -/
theorem c10_scenario_snapshot :
    (loadUserData env10 (some ()) st0).state.reputationData = some snap10 ∧
    snap10.score = 750 ∧ snap10.tier = 2 ∧ tierName snap10.tier = some "Gold" ∧
    snap10.loansCompleted = 3 ∧
    snap10.totalBorrowed = "5.0" ∧ displayAmount snap10.totalBorrowed = "5.00" ∧
    snap10.totalRepaid = "4.8" ∧ displayAmount snap10.totalRepaid = "4.80" ∧
    snap10.borrowingLimit = "2.0" ∧ displayAmount snap10.borrowingLimit = "2.00" ∧
    snap10.interestRate = 8.5 ∧ snap10.trustScore = 120 ∧ snap10.circles = 2 := by
  refine ⟨rfl, rfl, rfl, by decide, rfl, rfl, by decide, rfl, by decide, rfl, by decide,
    ?_, rfl, rfl⟩
  show jsDiv100 850 = (8.5 : ℚ)
  rw [jsDiv100_850]
  norm_num
